import Mathlib

/-!
Verification of the Dock-Your-Boat remote-control client (`src/DYBClient.ts`,
`src/types.ts`).  The client is embedded shallowly: JavaScript strings become
`List Char`, JSON values become the inductive `Json`, the JS runtime values
passed to `sendControl` become `JSValue` (numbers are modelled as rationals),
and the connection state machine becomes pure step functions on a `Client`
record together with an explicit effects record.
-/

namespace DYB

/-- A JSON value as produced by `JSON.parse`.  Object fields keep their
textual order; duplicate keys are resolved by `jsGet` taking the last
occurrence, as `JSON.parse` does. -/
inductive Json where
  | null : Json
  | bool : Bool → Json
  | num : ℚ → Json
  | str : String → Json
  | arr : List Json → Json
  | obj : List (String × Json) → Json

/-- JavaScript property access `o[k]` for parsed-JSON values: `none` models
`undefined` (missing property, or property access on a primitive). -/
def jsGet (j : Json) (k : String) : Option Json :=
  match j with
  | .obj fs => fs.foldl (fun acc p => if p.1 = k then some p.2 else acc) none
  | _ => none

/-- JavaScript truthiness of a parsed-JSON value (`NaN` cannot arise from
`JSON.parse`, so numbers are falsy exactly when zero). -/
def jsTruthy : Json → Bool
  | .null => false
  | .bool b => b
  | .num q => decide (q ≠ 0)
  | .str s => decide (s ≠ "")
  | .arr _ => true
  | .obj _ => true

/-- JavaScript strict equality `o === s` between a possibly-`undefined`
property value and a string literal. -/
def strictEqStr (o : Option Json) (s : String) : Bool :=
  match o with
  | some (.str t) => t = s
  | _ => false

/-! ### A model of `JSON.parse`

The client delegates frame decoding to the JavaScript built-in `JSON.parse`
(`DYBClient.processMessage`).  The built-in is modelled here by an executable
recursive-descent reader covering the protocol's message grammar: objects,
arrays, strings with the single-character escapes, decimal numbers (the
protocol sends no exponent notation), `true`/`false`/`null`.  Trailing
whitespace is permitted; any other leftover input is a parse failure, as in
the built-in. -/

def isWsChar (c : Char) : Bool :=
  c = ' ' || c = '\n' || c = '\t' || c = '\r'

def skipWs : List Char → List Char
  | [] => []
  | c :: cs => if isWsChar c then skipWs cs else c :: cs

def digitsToNat (ds : List Char) : Nat :=
  ds.foldl (fun a c => a * 10 + (c.toNat - 48)) 0

/-- Parses a JSON number (optional sign, integer part, optional fraction).
The numeric value `ip.fp` equals `(ip * 10^|fp| + fp) / 10^|fp|`, built with
`mkRat` so that concrete runs reduce inside the kernel. -/
def parseNumber (cs : List Char) : Option (ℚ × List Char) :=
  let signAndRest : Bool × List Char :=
    match cs with
    | '-' :: r => (true, r)
    | _ => (false, cs)
  let sgn : Int := if signAndRest.1 then -1 else 1
  let cs1 := signAndRest.2
  let ip := cs1.takeWhile Char.isDigit
  let cs2 := cs1.dropWhile Char.isDigit
  if ip.isEmpty then none
  else
    match cs2 with
    | '.' :: r =>
      let fp := r.takeWhile Char.isDigit
      let r2 := r.dropWhile Char.isDigit
      if fp.isEmpty then none
      else
        let scale := 10 ^ fp.length
        some (mkRat (sgn * (digitsToNat ip * scale + digitsToNat fp : Nat)) scale, r2)
    | _ =>
      some (mkRat (sgn * (digitsToNat ip : Nat)) 1, cs2)

/-- Parses the body of a JSON string after the opening quote, up to and
including the closing quote. -/
def parseStringBody (fuel : Nat) (cs : List Char) : Option (List Char × List Char) :=
  match fuel with
  | 0 => none
  | f + 1 =>
    match cs with
    | [] => none
    | c :: r =>
      if c = '"' then some ([], r)
      else if c = '\\' then
        match r with
        | [] => none
        | e :: r2 =>
          let ec : Option Char :=
            if e = '"' then some '"'
            else if e = '\\' then some '\\'
            else if e = '/' then some '/'
            else if e = 'n' then some '\n'
            else if e = 't' then some '\t'
            else if e = 'r' then some '\r'
            else none
          match ec with
          | some ch => (parseStringBody f r2).map (fun p => (ch :: p.1, p.2))
          | none => none
      else (parseStringBody f r).map (fun p => (c :: p.1, p.2))

mutual

def parseJsonVal (fuel : Nat) (cs : List Char) : Option (Json × List Char) :=
  match fuel with
  | 0 => none
  | f + 1 =>
    match skipWs cs with
    | [] => none
    | c :: r =>
      if c = 'n' then
        match r with
        | 'u' :: 'l' :: 'l' :: r2 => some (.null, r2)
        | _ => none
      else if c = 't' then
        match r with
        | 'r' :: 'u' :: 'e' :: r2 => some (.bool true, r2)
        | _ => none
      else if c = 'f' then
        match r with
        | 'a' :: 'l' :: 's' :: 'e' :: r2 => some (.bool false, r2)
        | _ => none
      else if c = '"' then
        (parseStringBody f r).map (fun p => (.str (String.mk p.1), p.2))
      else if c = '{' then
        match skipWs r with
        | '}' :: r2 => some (.obj [], r2)
        | r2 => (parseMembers f r2).map (fun p => (.obj p.1, p.2))
      else if c = '[' then
        match skipWs r with
        | ']' :: r2 => some (.arr [], r2)
        | r2 => (parseElems f r2).map (fun p => (.arr p.1, p.2))
      else
        (parseNumber (c :: r)).map (fun p => (.num p.1, p.2))

/-- Parses `"key" : value ( , "key" : value )* }` inside an object. -/
def parseMembers (fuel : Nat) (cs : List Char) : Option (List (String × Json) × List Char) :=
  match fuel with
  | 0 => none
  | f + 1 =>
    match skipWs cs with
    | '"' :: r =>
      match parseStringBody f r with
      | none => none
      | some (k, r2) =>
        match skipWs r2 with
        | ':' :: r3 =>
          match parseJsonVal f r3 with
          | none => none
          | some (v, r4) =>
            match skipWs r4 with
            | ',' :: r5 =>
              (parseMembers f r5).map (fun p => ((String.mk k, v) :: p.1, p.2))
            | '}' :: r5 => some ([(String.mk k, v)], r5)
            | _ => none
        | _ => none
    | _ => none

/-- Parses `value ( , value )* ]` inside an array. -/
def parseElems (fuel : Nat) (cs : List Char) : Option (List Json × List Char) :=
  match fuel with
  | 0 => none
  | f + 1 =>
    match parseJsonVal f cs with
    | none => none
    | some (v, r) =>
      match skipWs r with
      | ',' :: r2 => (parseElems f r2).map (fun p => (v :: p.1, p.2))
      | ']' :: r2 => some ([v], r2)
      | _ => none

end

/-- `JSON.parse` on a whole string: the full input must be consumed (up to
trailing whitespace); `none` models the thrown `SyntaxError`. -/
def parseJson (cs : List Char) : Option Json :=
  match parseJsonVal (cs.length + 1) cs with
  | some (j, rest) => if (skipWs rest).isEmpty then some j else none
  | none => none

/-! ### Events emitted by the client

`DYBClient` extends `EventEmitter`; the observable output of the inbound
pipeline is the ordered list of `emit` calls.  `AP_active` messages are only
logged to the console (`parseSpecialMessages`), so they produce no event. -/

inductive Event where
  | connected : Event
  | disconnected : Event
  | errorEv : Event
  | message : Json → Event
  | boatProperties : Json → Event
  | gameNotification : Json → Event
  | compassDisplay : Option Json → Event

/-- The `PlayerMessenger` block of `DYBClient.parseSpecialMessages` (source
lines 262-275): `message.PlayerMessenger && message.PlayerMessenger.t ===
'J'` is the truthiness test followed by the strict tag comparison; the
nested `Props`/`Msg` payloads of `message.PlayerMessenger.v` are then
emitted when truthy, `Props` first. -/
def playerMessengerEvents (message : Json) : List Event :=
  match jsGet message "PlayerMessenger" with
  | some pm =>
    if jsTruthy pm && strictEqStr (jsGet pm "t") "J" then
      let mv := jsGet pm "v"
      (match mv.bind (fun v => jsGet v "Props") with
       | some p => if jsTruthy p then [Event.boatProperties p] else []
       | none => []) ++
      (match mv.bind (fun v => jsGet v "Msg") with
       | some g => if jsTruthy g then [Event.gameNotification g] else []
       | none => [])
    else []
  | none => []

/-- The `AP_display` block of `DYBClient.parseSpecialMessages` (source lines
277-282): emits the envelope's `v` member as-is (an unchecked cast in the
source) when the key is truthy with tag `'S'`. -/
def apDisplayEvents (message : Json) : List Event :=
  match jsGet message "AP_display" with
  | some ap =>
    if jsTruthy ap && strictEqStr (jsGet ap "t") "S" then
      [Event.compassDisplay (jsGet ap "v")]
    else []
  | none => []

/-- `DYBClient.parseSpecialMessages` (source lines 261-288): the emit calls
in order.  The final `AP_active` branch (lines 285-287) only logs to the
console, so it contributes no event. -/
def parseSpecialMessages (message : Json) : List Event :=
  playerMessengerEvents message ++ apDisplayEvents message

/-- The dispatch of one successfully parsed message: the generic `message`
event first (source line 249), then the specialized events. -/
def dispatchMessage (m : Json) : List Event :=
  Event.message m :: parseSpecialMessages m

/-- `DYBClient.processMessage` (source lines 236-256): frames shorter than
two characters return early; the first character (routing id) is stripped;
`JSON.parse` failures are caught and logged, producing no event and leaving
all other state untouched. -/
def processMessage (line : List Char) : List Event :=
  if line.length < 2 then []
  else
    match parseJson (line.drop 1) with
    | none => []
    | some m => dispatchMessage m

/-! ### Frame decoder -/

/-- The frame-extraction loop of `DYBClient.handleData` (source lines
222-230): while the buffer contains `'\n'`, the substring before the first
occurrence is one complete frame and the consumed prefix (delimiter
included) is removed; the trailing remainder stays in the buffer.  The loop
is rendered as structural recursion on the buffer: a leading `'\n'` closes
the current (empty) frame, any other leading character is prepended to the
first frame of the rest if the rest contains a newline, and otherwise the
whole buffer is the retained remainder. -/
def extractFrames : List Char → List (List Char) × List Char
  | [] => ([], [])
  | c :: cs =>
    let p := extractFrames cs
    if c = '\n' then ([] :: p.1, p.2)
    else
      match p.1 with
      | [] => ([], c :: cs)
      | l :: ls => ((c :: l) :: ls, p.2)

/-- `DYBClient.handleData` (source lines 218-231), frame view: the chunk is
appended to the buffer and complete frames are split off; returns the
extracted frames and the new buffer. -/
def handleData (buffer data : List Char) : List (List Char) × List Char :=
  extractFrames (buffer ++ data)

/-- `DYBClient.handleData`, event view: each extracted frame of nonzero
length is handed to `processMessage` (source line 227-229), in order. -/
def handleDataEvents (buffer data : List Char) : List Event :=
  ((handleData buffer data).1.filter (fun l => decide (0 < l.length))).flatMap processMessage

/-! ### Connection manager

`this.state` together with the reconnect-timer handle is the whole mutable
connection state; each socket-event handler becomes a pure step function
returning the new state plus an effects record (transport opened, reconnect
scheduled with its delay, warning printed, lifecycle events emitted). -/

inductive ConnState where
  | Disconnected : ConnState
  | Connecting : ConnState
  | Connected : ConnState
  | Error : ConnState
deriving DecidableEq

/-- The mutable fields of `DYBClient` driving the lifecycle: `state` and
whether `reconnectTimer` is non-null. -/
structure Client where
  state : ConnState
  reconnectTimer : Bool
deriving DecidableEq

/-- A freshly constructed client: `state = Disconnected`, no timer. -/
def initClient : Client := { state := .Disconnected, reconnectTimer := false }

/-- The constructor's option resolution (source lines 40-46): `autoReconnect
?? true`, `reconnectDelay ?? 5000`, `groupId ?? 1`.  `host`/`port` only feed
the transport and are omitted. -/
structure ResolvedOptions where
  autoReconnect : Bool
  reconnectDelay : Nat
  groupId : Nat
deriving DecidableEq

def resolveOptions (autoReconnect? : Option Bool) (reconnectDelay? groupId? : Option Nat) :
    ResolvedOptions :=
  { autoReconnect := autoReconnect?.getD true,
    reconnectDelay := reconnectDelay?.getD 5000,
    groupId := groupId?.getD 1 }

/-- Observable side effects of one handler invocation. -/
structure StepOut where
  client : Client
  /-- a new transport was created and a connect initiated -/
  opened : Bool
  /-- `some d`: one reconnect timer was newly set with delay `d` -/
  scheduled : Option Nat
  warned : Bool
  emitted : List Event

/-- `DYBClient.scheduleReconnect` (source lines 293-304): a no-op when a
timer is already pending, otherwise sets the single-shot timer with the
configured delay. -/
def scheduleReconnect (opts : ResolvedOptions) (c : Client) : Client × Option Nat :=
  if c.reconnectTimer then (c, none)
  else ({ c with reconnectTimer := true }, some opts.reconnectDelay)

/-- `DYBClient.connect` (source lines 52-92): warns and returns when already
`Connected` or `Connecting`; otherwise moves to `Connecting` and opens a new
transport.  The pending reconnect timer, if any, is not touched. -/
def connectFn (c : Client) : StepOut :=
  if c.state = .Connected || c.state = .Connecting then
    { client := c, opened := false, scheduled := none, warned := true, emitted := [] }
  else
    { client := { c with state := .Connecting }, opened := true, scheduled := none,
      warned := false, emitted := [] }

/-- The socket `connect` handler (source lines 63-68). -/
def onConnectOk (c : Client) : StepOut :=
  { client := { c with state := .Connected }, opened := false, scheduled := none,
    warned := false, emitted := [.connected] }

/-- The socket `error` handler (source lines 74-78). -/
def onSockErr (c : Client) : StepOut :=
  { client := { c with state := .Error }, opened := false, scheduled := none,
    warned := false, emitted := [.errorEv] }

/-- The socket `close` handler (source lines 80-89): `wasConnected` is
whether the state **at close time** is `Connected`; the state becomes
`Disconnected`, `disconnected` is emitted, and a reconnect is scheduled only
when auto-reconnect is on and `wasConnected` held. -/
def onClose (opts : ResolvedOptions) (c : Client) : StepOut :=
  let wasConnected := c.state = .Connected
  let c1 := { c with state := ConnState.Disconnected }
  if opts.autoReconnect ∧ wasConnected then
    let sr := scheduleReconnect opts c1
    { client := sr.1, opened := false, scheduled := sr.2, warned := false,
      emitted := [.disconnected] }
  else
    { client := c1, opened := false, scheduled := none, warned := false,
      emitted := [.disconnected] }

/-- The reconnect timer firing (source lines 300-303): clears the timer
handle, then calls `connect`. -/
def onTimerFire (c : Client) : StepOut :=
  connectFn { c with reconnectTimer := false }

/-- `DYBClient.disconnect` (source lines 97-109): cancels the timer,
destroys the socket, and forces `Disconnected`. -/
def disconnectFn : Client → StepOut := fun _ =>
  { client := { state := .Disconnected, reconnectTimer := false }, opened := false,
    scheduled := none, warned := false, emitted := [] }

/-- External stimuli driving the lifecycle. -/
inductive SockEvent where
  | connectCall : SockEvent
  | connectOk : SockEvent
  | sockErr : SockEvent
  | sockClose : SockEvent
  | timerFire : SockEvent
  | disconnectCall : SockEvent
deriving DecidableEq

def step (opts : ResolvedOptions) (c : Client) : SockEvent → StepOut
  | .connectCall => connectFn c
  | .connectOk => onConnectOk c
  | .sockErr => onSockErr c
  | .sockClose => onClose opts c
  | .timerFire => onTimerFire c
  | .disconnectCall => disconnectFn c

/-- Final client state after a trace of stimuli. -/
def runTrace (opts : ResolvedOptions) (c : Client) : List SockEvent → Client
  | [] => c
  | e :: es => runTrace opts (step opts c e).client es

/-- How many transports a trace of stimuli opens. -/
def countOpens (opts : ResolvedOptions) (c : Client) : List SockEvent → Nat
  | [] => 0
  | e :: es =>
    let o := step opts c e
    (if o.opened then 1 else 0) + countOpens opts o.client es

/-- `handleData`/`processMessage` read and write only `this.buffer`; the
connection state is passed through untouched (decode failures are caught
inside `processMessage`, source lines 253-255).  Returns the unchanged
client, the emitted events, and the new buffer. -/
def clientHandleData (c : Client) (buffer data : List Char) :
    Client × List Event × List Char :=
  (c, handleDataEvents buffer data, (handleData buffer data).2)

/-! ### Outbound encoder

JavaScript numbers are modelled as rationals (every value the client sends
is an exact decimal).  A runtime value handed to `sendControl` is a
`JSValue`; the tag selection of `getTypeCode` branches on `typeof`. -/

/-- A JavaScript runtime value as seen by `getTypeCode`. -/
inductive JSValue where
  | num : ℚ → JSValue
  | bool : Bool → JSValue
  | str : String → JSValue
  /-- a non-null object (`typeof v === 'object'`) -/
  | obj : Json → JSValue
  /-- `null` (also `typeof null === 'object'` in JavaScript) -/
  | nullV : JSValue
  /-- any remaining runtime type (`undefined`, functions, symbols) -/
  | undef : JSValue

/-- `DYBClient.getTypeCode` (source lines 309-320): numbers split on
`Number.isInteger` (for a rational: denominator 1), then `typeof` dispatch,
with `'S'` as the final fallback. -/
def getTypeCode : JSValue → Char
  | .num q => if q.den = 1 then 'I' else 'F'
  | .bool _ => 'B'
  | .str _ => 'S'
  | .obj _ => 'J'
  | .nullV => 'J'
  | .undef => 'S'

/-- `DYBClient.clamp` (source lines 325-327): `Math.max(min, Math.min(max,
value))`. -/
def clamp (value lo hi : ℚ) : ℚ :=
  max lo (min hi value)

/-- `Math.round`, which rounds half-up: `⌊x + 1/2⌋`, written over the
numerator and denominator with floor division so that concrete calls reduce
(`jsRound_eq_floor` below equates the two forms). -/
def jsRound (x : ℚ) : ℤ :=
  (2 * x.num + x.den).fdiv (2 * x.den)

/-- JavaScript number-to-string (the `JSON.stringify` rendering) for the
exact decimal values the protocol exchanges: integers print without a
point, other values print with their finite decimal expansion. -/
def fracDigits (fuel : Nat) (num den : Nat) : List Char :=
  match fuel with
  | 0 => []
  | f + 1 =>
    if num = 0 then []
    else Nat.digitChar (num * 10 / den) :: fracDigits f (num * 10 % den) den

def jsNumToString (q : ℚ) : String :=
  let sign := if q.num < 0 then "-" else ""
  let na := q.num.natAbs
  if q.den = 1 then sign ++ Nat.repr na
  else sign ++ Nat.repr (na / q.den) ++ "." ++ String.mk (fracDigits 64 (na % q.den) q.den)

/-- JSON string escaping as performed by `JSON.stringify`. -/
def escChar (c : Char) : List Char :=
  if c = '"' then ['\\', '"']
  else if c = '\\' then ['\\', '\\']
  else if c = '\n' then ['\\', 'n']
  else if c = '\t' then ['\\', 't']
  else if c = '\r' then ['\\', 'r']
  else [c]

def escapeJsonStr (s : String) : String :=
  String.mk (s.toList.foldr (fun c acc => escChar c ++ acc) [])

/-- `JSON.stringify` on a parsed-JSON value (object members keep insertion
order, as in V8). -/
def stringifyJson : Json → String
  | .null => "null"
  | .bool b => if b then "true" else "false"
  | .num q => jsNumToString q
  | .str s => "\"" ++ escapeJsonStr s ++ "\""
  | .arr xs => "[" ++ String.intercalate "," (xs.attach.map (fun x => stringifyJson x.1)) ++ "]"
  | .obj fs => "\x7b" ++
      String.intercalate ","
        (fs.attach.map (fun p => "\"" ++ escapeJsonStr p.1.1 ++ "\":" ++ stringifyJson p.1.2)) ++
      "\x7d"
decreasing_by
  · have h := List.sizeOf_lt_of_mem x.2
    simp only [Json.arr.sizeOf_spec]
    omega
  · obtain ⟨⟨k, v⟩, hmem⟩ := p
    have h := List.sizeOf_lt_of_mem hmem
    simp only [Prod.mk.sizeOf_spec] at h
    simp only [Json.obj.sizeOf_spec]
    omega

/-- `JSON.stringify` on a `JSValue` in value position. -/
def stringifyJSValue : JSValue → String
  | .num q => jsNumToString q
  | .bool b => if b then "true" else "false"
  | .str s => "\"" ++ escapeJsonStr s ++ "\""
  | .obj j => stringifyJson j
  | .nullV => "null"
  | .undef => "null"

/-- `JSON.stringify` of the message built by `DYBClient.sendControl`
(source lines 128-138): `{ [key]: { t: type, v: value } }`.  A member whose
value is `undefined` is omitted by `JSON.stringify`, hence the `undef`
case drops the `"v"` member. -/
def sendControlJson (key : String) (value : JSValue) : String :=
  let t := getTypeCode value
  "\x7b\"" ++ escapeJsonStr key ++ "\":\x7b\"t\":\"" ++ String.mk [t] ++ "\"" ++
    (match value with
     | .undef => ""
     | v => ",\"v\":" ++ stringifyJSValue v) ++ "\x7d\x7d"

/-- `DYBClient.sendMessage` (source lines 198-213): a warning no-op unless
`Connected`; otherwise writes `` `${groupId}${json}\0` `` to the socket.
`some s` is the exact byte string written. -/
def sendMessage (opts : ResolvedOptions) (st : ConnState) (json : String) : Option String :=
  if st = .Connected then some (Nat.repr opts.groupId ++ json ++ String.mk ['\x00'])
  else none

/-- `DYBClient.sendControl` (source lines 128-138) composed with
`sendMessage`: the bytes written for one control update. -/
def sendControl (opts : ResolvedOptions) (st : ConnState) (key : String) (value : JSValue) :
    Option String :=
  sendMessage opts st (sendControlJson key value)

/-- `DYBClient.sendRudder` (source lines 143-145). -/
def sendRudder (opts : ResolvedOptions) (st : ConnState) (value : ℚ) : Option String :=
  sendControl opts st "BoatRuder" (.num (clamp value (-1) 1))

/-- `DYBClient.sendThrottle` (source lines 150-153); `engine` defaults to 0
at the call site. -/
def sendThrottle (opts : ResolvedOptions) (st : ConnState) (value : ℚ) (engine : Nat) :
    Option String :=
  sendControl opts st ("BoatThrottle" ++ Nat.repr engine) (.num (clamp value (-1) 1))

/-- The value encoded by `sendRudder`. -/
def sendRudderValue (value : ℚ) : ℚ := clamp value (-1) 1

/-- The value encoded by `DYBClient.sendBowThruster` (source lines 165-167):
`Math.max(-1, Math.min(1, Math.round(value)))`. -/
def sendBowThrusterValue (value : ℚ) : ℚ :=
  ((max (-1) (min 1 (jsRound value)) : ℤ) : ℚ)

/-- `DYBClient.sendBowThruster` (source lines 165-167). -/
def sendBowThruster (opts : ResolvedOptions) (st : ConnState) (value : ℚ) : Option String :=
  sendControl opts st "BowThruster" (.num (sendBowThrusterValue value))

/-- Options of the demo configuration: all constructor defaults
(`autoReconnect = true`, `reconnectDelay = 5000`, `groupId = 1`). -/
def defaultOpts : ResolvedOptions := resolveOptions none none none

/-- A concrete `Props` payload (used as a witness input). -/
def propsPayload : Json :=
  Json.obj [("EngineCount", Json.num (mkRat 1 1))]

/-- A `PlayerMessenger` envelope whose tag is `'S'` rather than `'J'` but
whose value still carries a `Props` shape (witness input). -/
def messengerTagS : Json :=
  Json.obj [("t", Json.str "S"), ("v", Json.obj [("Props", propsPayload)])]

/-- A decoded message carrying `messengerTagS` (witness input). -/
def messageTagS : Json :=
  Json.obj [("PlayerMessenger", messengerTagS)]

/-! ## Supporting lemmas -/

/-- `jsRound` is rounding half-up: `Math.round x = ⌊x + 1/2⌋`. -/
theorem jsRound_eq_floor (x : ℚ) : jsRound x = ⌊x + 1 / 2⌋ := by
  have hd0 : (0 : ℤ) < (x.den : ℤ) := by exact_mod_cast x.pos
  have h1 : jsRound x = (2 * x.num + (x.den : ℤ)) / (2 * (x.den : ℤ)) :=
    Int.fdiv_eq_ediv _ (by omega)
  have key : x * (x.den : ℚ) = (x.num : ℚ) := by
    have h := Rat.num_div_den x
    have hden : ((x.den : ℚ)) ≠ 0 := by positivity
    calc x * (x.den : ℚ) = ((x.num : ℚ) / x.den) * x.den := by rw [h]
      _ = (x.num : ℚ) := by field_simp
  have h2 : x + 1 / 2 = ((2 * x.num + (x.den : ℤ) : ℤ) : ℚ) / ((2 * x.den : ℕ) : ℚ) := by
    rw [eq_div_iff (by positivity)]
    push_cast
    linear_combination 2 * key
  have h3 : ⌊x + 1 / 2⌋ = (2 * x.num + (x.den : ℤ)) / ((2 * x.den : ℕ) : ℤ) := by
    rw [h2, Rat.floor_intCast_div_natCast]
  rw [h1, h3]
  congr 1

/-- A buffer without a newline yields no frame and is retained whole. -/
theorem extractFrames_no_newline (l : List Char) (h : '\n' ∉ l) :
    extractFrames l = ([], l) := by
  induction l with
  | nil => rfl
  | cons c cs ih =>
    have hc : ¬c = '\n' := fun hh => h (hh ▸ List.mem_cons_self c cs)
    have hcs : '\n' ∉ cs := fun hh => h (List.mem_cons_of_mem _ hh)
    simp [extractFrames, hc, ih hcs]

/-- Splitting off the first complete frame: the bytes before the first
newline come out exactly once, and the rest of the buffer is processed
independently. -/
theorem extractFrames_append (l r : List Char) (h : '\n' ∉ l) :
    extractFrames (l ++ '\n' :: r) = (l :: (extractFrames r).1, (extractFrames r).2) := by
  induction l with
  | nil => simp [extractFrames]
  | cons c cs ih =>
    have hc : ¬c = '\n' := fun hh => h (hh ▸ List.mem_cons_self c cs)
    have hcs : '\n' ∉ cs := fun hh => h (List.mem_cons_of_mem _ hh)
    simp only [List.cons_append, extractFrames, if_neg hc, List.append_eq, ih hcs]

/-- Every event of the `AP_display` block is a compass-display event. -/
theorem mem_apDisplayEvents {m : Json} {e : Event} (h : e ∈ apDisplayEvents m) :
    ∃ o, e = Event.compassDisplay o := by
  rcases hj : jsGet m "AP_display" with _ | ap
  · simp only [apDisplayEvents, hj, List.not_mem_nil] at h
  · simp only [apDisplayEvents, hj] at h
    split_ifs at h with hc
    · simp only [List.mem_singleton] at h
      exact ⟨_, h⟩
    · simp at h

/-! ## Claims -/

/-- C1, amended: when the transport close event fires the state always
becomes `Disconnected`, and a reconnect is scheduled — exactly one, with
the configured delay — precisely when auto-reconnect is enabled and the
state **at close time** is `Connected` (and no reconnect is already
pending).  In particular a close arriving in the `Error` state never
schedules a reconnect, regardless of whether the transition into `Error`
came from a previously connected session, and a close following a state
that was never `Connected` schedules none. -/
theorem close_schedules_reconnect_iff (opts : ResolvedOptions) (c : Client) :
    ((onClose opts c).client.state = .Disconnected) ∧
    (opts.autoReconnect = true → c.state = .Connected → c.reconnectTimer = false →
      (onClose opts c).scheduled = some opts.reconnectDelay ∧
      (onClose opts c).client.reconnectTimer = true) ∧
    (c.state ≠ .Connected → (onClose opts c).scheduled = none) ∧
    (opts.autoReconnect = false → (onClose opts c).scheduled = none) := by
  obtain ⟨st, rt⟩ := c
  cases st <;> cases rt <;> cases hA : opts.autoReconnect <;>
    simp [onClose, scheduleReconnect, hA]

/-- Witness for C1's amended theorem at the default options. -/
theorem close_schedules_reconnect_iff_witness :
    (onClose defaultOpts { state := .Connected, reconnectTimer := false }).scheduled =
      some 5000 ∧
    (onClose defaultOpts { state := .Error, reconnectTimer := false }).scheduled = none :=
  ⟨((close_schedules_reconnect_iff defaultOpts
      { state := .Connected, reconnectTimer := false }).2.1 rfl rfl rfl).1,
   (close_schedules_reconnect_iff defaultOpts
      { state := .Error, reconnectTimer := false }).2.2.1 (by decide)⟩

/-- C1 counterexample: with auto-reconnect enabled, after the trace
connect-call, connect-success, socket-error the session **had reached**
`Connected` and the transition into `Error` came from that connected
session, yet the close event that follows schedules **no** reconnect —
the handler's `wasConnected` guard tests the state at close time, which is
`Error`, not the session history.  This refutes the claim that such a close
schedules a reconnect. -/
theorem close_in_error_after_connected_schedules_none :
    defaultOpts.autoReconnect = true ∧
    (runTrace defaultOpts initClient [.connectCall, .connectOk]).state = .Connected ∧
    (runTrace defaultOpts initClient [.connectCall, .connectOk, .sockErr]).state = .Error ∧
    (step defaultOpts (runTrace defaultOpts initClient [.connectCall, .connectOk, .sockErr])
        .sockClose).scheduled = none := by
  decide

/-- C8: calling `connect()` while `Connecting` or `Connected` is a warning
no-op — the state is unchanged and no transport is opened — and two
`connect()` calls in immediate succession from a fresh client open exactly
one transport. -/
theorem connect_idempotent :
    (∀ c : Client, c.state = .Connecting ∨ c.state = .Connected →
      (connectFn c).client = c ∧ (connectFn c).opened = false ∧
        (connectFn c).warned = true) ∧
    countOpens defaultOpts initClient [.connectCall, .connectCall] = 1 := by
  refine ⟨?_, by decide⟩
  intro c h
  rcases h with h | h <;> simp [connectFn, h]

/-- Witness for C8 in the `Connecting` state. -/
theorem connect_idempotent_witness :
    (connectFn { state := .Connecting, reconnectTimer := false }).client =
      { state := .Connecting, reconnectTimer := false } ∧
    (connectFn { state := .Connecting, reconnectTimer := false }).opened = false ∧
    (connectFn { state := .Connecting, reconnectTimer := false }).warned = true :=
  connect_idempotent.1 { state := .Connecting, reconnectTimer := false } (Or.inl rfl)

/-- C3: with the default options (group id 1) and engine index 0 (the
declared default), `sendThrottle(0.25)` while `Connected` writes exactly
`1{"BoatThrottle0":{"t":"F","v":0.25}}` followed by one null byte, and no
newline occurs anywhere in the written bytes. -/
theorem sendThrottle_exact_wire :
    sendThrottle defaultOpts .Connected (mkRat 1 4) 0 =
      some "1\x7b\"BoatThrottle0\":\x7b\"t\":\"F\",\"v\":0.25\x7d\x7d\x00" ∧
    '\n' ∉ "1\x7b\"BoatThrottle0\":\x7b\"t\":\"F\",\"v\":0.25\x7d\x7d\x00".toList ∧
    "1\x7b\"BoatThrottle0\":\x7b\"t\":\"F\",\"v\":0.25\x7d\x7d\x00".toList.getLast? =
      some '\x00' := by
  refine ⟨?_, by decide, by decide⟩
  decide

/-- C4: feeding the frame decoder the chunk
`1{"A":1}\n2{"B":2}\n3{"C":` yields exactly the two complete frames and
retains the partial third frame; feeding `3}\n` afterwards yields exactly
one frame, which is the retained remainder concatenated with the new chunk
up to the newline — no byte lost or duplicated. -/
theorem frame_decoder_split :
    handleData [] ("1\x7b\"A\":1\x7d\n2\x7b\"B\":2\x7d\n3\x7b\"C\":".toList) =
      (["1\x7b\"A\":1\x7d".toList, "2\x7b\"B\":2\x7d".toList], "3\x7b\"C\":".toList) ∧
    handleData ("3\x7b\"C\":".toList) ("3\x7d\n".toList) =
      (["3\x7b\"C\":3\x7d".toList], []) ∧
    "3\x7b\"C\":".toList ++ "3\x7d".toList = "3\x7b\"C\":3\x7d".toList := by
  refine ⟨?_, ?_, by decide⟩ <;> decide

/-- C5: the outbound type tag is `'I'` for integer-valued numbers, `'F'`
for non-integer numbers, `'B'` for booleans, `'S'` for strings, `'J'` for
structured (`typeof === 'object'`) values — including `null`, whose runtime
`typeof` is `'object'` — and the fallback for every remaining runtime type
is `'S'`, so a tag is always chosen. -/
theorem getTypeCode_spec :
    (∀ q : ℚ, q.den = 1 → getTypeCode (.num q) = 'I') ∧
    (∀ q : ℚ, q.den ≠ 1 → getTypeCode (.num q) = 'F') ∧
    (∀ b : Bool, getTypeCode (.bool b) = 'B') ∧
    (∀ s : String, getTypeCode (.str s) = 'S') ∧
    (∀ j : Json, getTypeCode (.obj j) = 'J') ∧
    getTypeCode .nullV = 'J' ∧
    getTypeCode .undef = 'S' := by
  refine ⟨?_, ?_, fun _ => rfl, fun _ => rfl, fun _ => rfl, rfl, rfl⟩ <;>
    intro q h <;> simp [getTypeCode, h]

/-- Witness for C5 at an integer and at a non-integer number. -/
theorem getTypeCode_spec_witness :
    ((3 : ℚ).den = 1 ∧ getTypeCode (.num 3) = 'I') ∧
    ((mkRat 1 2).den ≠ 1 ∧ getTypeCode (.num (mkRat 1 2)) = 'F') :=
  ⟨⟨by decide, getTypeCode_spec.1 3 (by decide)⟩,
   ⟨by decide, getTypeCode_spec.2.1 (mkRat 1 2) (by decide)⟩⟩

/-- C6: `sendRudder` encodes the value clamped to `[-1, 1]` — it is the
identity on the interval, `1` above it, `-1` below it, and in particular
`sendRudder(2.0)` encodes exactly `1` and `sendRudder(-5.0)` exactly `-1`;
`sendBowThruster` encodes `Math.round` (half-up rounding, `⌊x + 1/2⌋`)
clamped to `{-1, 0, 1}`, and in particular `sendBowThruster(0.6)` encodes
exactly `1`. -/
theorem clamp_rounding_spec :
    (∀ x : ℚ, -1 ≤ x → x ≤ 1 → sendRudderValue x = x) ∧
    (∀ x : ℚ, 1 ≤ x → sendRudderValue x = 1) ∧
    (∀ x : ℚ, x ≤ -1 → sendRudderValue x = -1) ∧
    sendRudderValue 2 = 1 ∧
    sendRudderValue (-5) = -1 ∧
    (∀ x : ℚ, sendBowThrusterValue x = ((max (-1) (min 1 ⌊x + 1 / 2⌋) : ℤ) : ℚ)) ∧
    (∀ x : ℚ, sendBowThrusterValue x = -1 ∨ sendBowThrusterValue x = 0 ∨
      sendBowThrusterValue x = 1) ∧
    sendBowThrusterValue (mkRat 3 5) = 1 := by
  refine ⟨?_, ?_, ?_, by decide, by decide, ?_, ?_, by decide⟩
  · intro x h1 h2
    simp [sendRudderValue, clamp, min_eq_right h2, max_eq_right h1]
  · intro x h
    simp [sendRudderValue, clamp, min_eq_left h]
  · intro x h
    have hx1 : x ≤ 1 := h.trans (by norm_num)
    simp [sendRudderValue, clamp, min_eq_right hx1, max_eq_left h]
  · intro x
    simp [sendBowThrusterValue, jsRound_eq_floor]
  · intro x
    have h : jsRound x ≤ -1 ∨ jsRound x = 0 ∨ 1 ≤ jsRound x := by omega
    rcases h with h | h | h
    · left
      have hmin : min 1 (jsRound x) = jsRound x := min_eq_right (by omega)
      have hmax : max (-1) (jsRound x) = -1 := max_eq_left h
      simp [sendBowThrusterValue, hmin, hmax]
    · right; left
      simp [sendBowThrusterValue, h]
    · right; right
      have hmin : min 1 (jsRound x) = 1 := min_eq_left h
      simp [sendBowThrusterValue, hmin]

/-- Witness for C6 at `0.5` (inside the interval), `3` (above it), `-2`
(below it), and the membership conjunct at `0.6`. -/
theorem clamp_rounding_spec_witness :
    (-1 ≤ (mkRat 1 2) ∧ (mkRat 1 2) ≤ 1 ∧ sendRudderValue (mkRat 1 2) = mkRat 1 2) ∧
    (1 ≤ (3 : ℚ) ∧ sendRudderValue 3 = 1) ∧
    ((-2 : ℚ) ≤ -1 ∧ sendRudderValue (-2) = -1) ∧
    (sendBowThrusterValue (mkRat 3 5) = -1 ∨ sendBowThrusterValue (mkRat 3 5) = 0 ∨
      sendBowThrusterValue (mkRat 3 5) = 1) :=
  ⟨⟨by decide, by decide, clamp_rounding_spec.1 (mkRat 1 2) (by decide) (by decide)⟩,
   ⟨by decide, clamp_rounding_spec.2.1 3 (by decide)⟩,
   ⟨by decide, clamp_rounding_spec.2.2.1 (-2) (by decide)⟩,
   clamp_rounding_spec.2.2.2.2.2.2.1 (mkRat 3 5)⟩

/-- C2 counterexample: the frame `1{"A":5}` carries no `{t, v}` envelope
shape (the value under `A` is the bare number `5`), yet decoding does not
fail with any malformed-envelope error — the parsed object is emitted as a
`message` event.  `processMessage` performs no shape check after
`JSON.parse`, refuting the claim that decoding fails when the `{tag,
value}` shape is absent. -/
theorem absent_envelope_shape_decodes :
    parseJson ("\x7b\"A\":5\x7d".toList) = some (Json.obj [("A", Json.num (mkRat 5 1))]) ∧
    processMessage ("1\x7b\"A\":5\x7d".toList) =
      [Event.message (Json.obj [("A", Json.num (mkRat 5 1))])] :=
  ⟨rfl, rfl⟩

/-- C2, amended: decoding an inbound frame fails only when the frame is
shorter than two characters or its JSON body is invalid; the `{t, v}`
envelope shape is never checked — any successfully parsed JSON value is
passed through uninterpreted as the `message` payload — and a message is
never rejected because a value's runtime type disagrees with its tag. -/
theorem decode_passthrough :
    (∀ (line : List Char) (m : Json), 2 ≤ line.length →
      parseJson (line.drop 1) = some m →
      processMessage line = Event.message m :: parseSpecialMessages m) ∧
    (∀ line : List Char, processMessage line = [] →
      line.length < 2 ∨ parseJson (line.drop 1) = none) := by
  constructor
  · intro line m hl hp
    have hp' : parseJson line.tail = some m := List.drop_one line ▸ hp
    simp [processMessage, dispatchMessage, hp', Nat.not_lt.mpr hl]
  · intro line h
    by_cases hl : line.length < 2
    · exact Or.inl hl
    · right
      rcases hh : parseJson (line.drop 1) with _ | m
      · rfl
      · rw [processMessage, if_neg hl, hh] at h
        simp [dispatchMessage] at h

/-- Witness for C2's amended theorem: a frame whose `AP_display` envelope
is tagged `'S'` but carries the number `42` — a tag/type mismatch — is
still decoded and dispatched, not rejected. -/
theorem decode_passthrough_witness :
    2 ≤ ("1\x7b\"AP_display\":\x7b\"t\":\"S\",\"v\":42\x7d\x7d".toList).length ∧
    processMessage ("1\x7b\"AP_display\":\x7b\"t\":\"S\",\"v\":42\x7d\x7d".toList) =
      Event.message
          (Json.obj [("AP_display",
            Json.obj [("t", Json.str "S"), ("v", Json.num (mkRat 42 1))])]) ::
        parseSpecialMessages
          (Json.obj [("AP_display",
            Json.obj [("t", Json.str "S"), ("v", Json.num (mkRat 42 1))])]) :=
  ⟨by decide,
   decode_passthrough.1 ("1\x7b\"AP_display\":\x7b\"t\":\"S\",\"v\":42\x7d\x7d".toList)
     (Json.obj [("AP_display",
       Json.obj [("t", Json.str "S"), ("v", Json.num (mkRat 42 1))])])
     (by decide) rfl⟩

/-- C7: for a successfully decoded frame whose message carries, under the
`PlayerMessenger` key with tag `'J'`, both a truthy `Props` shape and a
truthy `Msg` shape, dispatch produces — synchronously and in this order —
the generic `message` event, then the boat-properties event, then the
game-notification event (followed only by the remaining `AP_display`
handling). -/
theorem dispatch_order (line : List Char) (m pm v p g : Json)
    (hl : 2 ≤ line.length) (hp : parseJson (line.drop 1) = some m)
    (h1 : jsGet m "PlayerMessenger" = some pm) (h2 : jsTruthy pm = true)
    (h3 : jsGet pm "t" = some (.str "J")) (h4 : jsGet pm "v" = some v)
    (h5 : jsGet v "Props" = some p) (h6 : jsTruthy p = true)
    (h7 : jsGet v "Msg" = some g) (h8 : jsTruthy g = true) :
    processMessage line =
      Event.message m :: Event.boatProperties p :: Event.gameNotification g ::
        apDisplayEvents m := by
  have hpm : playerMessengerEvents m =
      [Event.boatProperties p, Event.gameNotification g] := by
    simp [playerMessengerEvents, h1, h2, h3, h4, h5, h6, h7, h8, strictEqStr]
  have hp' : parseJson line.tail = some m := List.drop_one line ▸ hp
  simp [processMessage, dispatchMessage, parseSpecialMessages, hp', Nat.not_lt.mpr hl, hpm]

/-- Witness for C7 on a concrete `PlayerMessenger` frame carrying both
`Props` and `Msg`. -/
theorem dispatch_order_witness :
    processMessage
        (String.toList ("1\x7b\"PlayerMessenger\":\x7b\"t\":\"J\",\"v\":\x7b\"Props\":" ++
          "\x7b\"EngineCount\":1\x7d,\"Msg\":\x7b\"Type\":\"Spawned\",\"Noti\":\"x\"\x7d" ++
          "\x7d\x7d\x7d")) =
      Event.message
          (Json.obj [("PlayerMessenger", Json.obj [("t", Json.str "J"),
            ("v", Json.obj [("Props", Json.obj [("EngineCount", Json.num (mkRat 1 1))]),
              ("Msg", Json.obj [("Type", Json.str "Spawned"),
                ("Noti", Json.str "x")])])])]) ::
        Event.boatProperties (Json.obj [("EngineCount", Json.num (mkRat 1 1))]) ::
        Event.gameNotification
          (Json.obj [("Type", Json.str "Spawned"), ("Noti", Json.str "x")]) ::
        apDisplayEvents
          (Json.obj [("PlayerMessenger", Json.obj [("t", Json.str "J"),
            ("v", Json.obj [("Props", Json.obj [("EngineCount", Json.num (mkRat 1 1))]),
              ("Msg", Json.obj [("Type", Json.str "Spawned"),
                ("Noti", Json.str "x")])])])]) :=
  dispatch_order _ _ _ _ _ _ (by decide) rfl rfl rfl rfl rfl rfl rfl rfl rfl

/-- C9: a frame that fails to decode (shorter than two characters, or
invalid JSON) is caught per frame: it produces no event, the connection
state is returned unchanged, and the following frame in the same chunk is
still processed normally. -/
theorem decode_failure_isolated (c : Client) (bad good : List Char)
    (hb : '\n' ∉ bad) (hg : '\n' ∉ good) (hbne : bad ≠ []) (hgne : good ≠ [])
    (hfail : bad.length < 2 ∨ parseJson (bad.drop 1) = none) :
    clientHandleData c [] (bad ++ '\n' :: (good ++ ['\n'])) =
      (c, processMessage good, []) := by
  have hone : extractFrames (good ++ ['\n']) = ([good], []) := by
    have h := extractFrames_append good [] hg
    simpa [extractFrames] using h
  have hextract : extractFrames (bad ++ '\n' :: (good ++ ['\n'])) = ([bad, good], []) := by
    rw [extractFrames_append _ _ hb, hone]
  have hbadnil : processMessage bad = [] := by
    rcases hfail with h | h
    · simp [processMessage, h]
    · rw [processMessage, h]
      split <;> rfl
  simp [clientHandleData, handleDataEvents, handleData, hextract, hbadnil,
    List.length_pos.mpr hbne, List.length_pos.mpr hgne]

/-- Witness for C9: the malformed frame `1{bad` yields nothing and the
well-formed frame `1{"A":1}` after it is still decoded, with the client
state untouched. -/
theorem decode_failure_isolated_witness :
    parseJson (("1\x7bbad".toList).drop 1) = none ∧
    clientHandleData { state := .Connected, reconnectTimer := false } []
        ("1\x7bbad".toList ++ '\n' :: ("1\x7b\"A\":1\x7d".toList ++ ['\n'])) =
      ({ state := .Connected, reconnectTimer := false },
        [Event.message (Json.obj [("A", Json.num (mkRat 1 1))])], []) :=
  ⟨rfl,
   (decode_failure_isolated { state := .Connected, reconnectTimer := false }
       ("1\x7bbad".toList) ("1\x7b\"A\":1\x7d".toList)
       (by decide) (by decide) (by decide) (by decide) (Or.inr rfl)).trans rfl⟩

/-- C10: the boat-properties and game-notification events are derived only
from a `PlayerMessenger` envelope whose tag is strictly `'J'`: when the tag
is anything else, a message carrying a `Props` (or `Msg`) payload under
that key produces no specialized event — only the generic `message`
event. -/
theorem specialized_events_need_tag_J (m pm v p : Json)
    (h1 : jsGet m "PlayerMessenger" = some pm)
    (hne : strictEqStr (jsGet pm "t") "J" = false)
    (_h4 : jsGet pm "v" = some v) (_h5 : jsGet v "Props" = some p) :
    (∀ q, Event.boatProperties q ∉ dispatchMessage m) ∧
    (∀ g, Event.gameNotification g ∉ dispatchMessage m) ∧
    Event.message m ∈ dispatchMessage m := by
  have hpm : playerMessengerEvents m = [] := by
    simp [playerMessengerEvents, h1, hne]
  refine ⟨?_, ?_, by simp [dispatchMessage]⟩ <;> intro q hq <;>
    · simp only [dispatchMessage, parseSpecialMessages, hpm, List.nil_append,
        List.mem_cons] at hq
      rcases hq with hq | hq
      · exact Event.noConfusion hq
      · obtain ⟨o, ho⟩ := mem_apDisplayEvents hq
        exact Event.noConfusion ho

/-- Witness for C10: a `PlayerMessenger` envelope tagged `'S'` whose value
carries a `Props` shape produces the generic event but no boat-properties
event. -/
theorem specialized_events_need_tag_J_witness :
    (∀ q, Event.boatProperties q ∉ dispatchMessage messageTagS) ∧
    Event.message messageTagS ∈ dispatchMessage messageTagS :=
  ⟨(specialized_events_need_tag_J messageTagS messengerTagS
      (Json.obj [("Props", propsPayload)]) propsPayload rfl rfl rfl rfl).1,
   (specialized_events_need_tag_J messageTagS messengerTagS
      (Json.obj [("Props", propsPayload)]) propsPayload rfl rfl rfl rfl).2.2⟩

end DYB
